import Mathlib

/-!
# Course menu configuration (`config.js`)

A shallow embedding of `src/config.js`: the title and disclaimer variables,
`showDisclaimer`, the `lesson` menu table with its seventeen pushed entries,
and `fixupSubmenu`.

JavaScript arrays and objects are reference values, so the embedding keeps an
explicit store: entry objects and menu tables live in two typed heaps and are
named by references.  A submenu handed to `fixupSubmenu` may therefore be the
top-level table itself or share entry objects with it, exactly as in the
source.

Page counts are JavaScript Numbers.  The embedding covers the Numbers a page
count can be, the non-negative integers that are IEEE 754 doubles and
`+Infinity`, and adds them as the source does: the exact sum rounded to the
nearest double, ties to even, overflowing to `+Infinity`.
-/

namespace Config

/-! ## Data model -/

/-- A reference to an object in one of the heaps of a `Store`. -/
abbrev Ref := Nat

/-- Index of the page count in `menuEntryData` (`var MENU_PAGECNT_IDX = 0`). -/
def MENU_PAGECNT_IDX : Nat := 0
/-- Index of the page-id array in `menuEntryData`. -/
def MENU_PAGEARRAY_IDX : Nat := 1
/-- Index of the assessment marker in `menuEntryData`. -/
def MENU_ASSESSMENT_IDX : Nat := 2
/-- Index of the assessment url in `menuEntryData`. -/
def MENU_ASSESSMENTURL_IDX : Nat := 3
/-- Index of the title in `menuEntryData`. -/
def MENU_TITLE_IDX : Nat := 4
/-- Index of the url in `menuEntryData`. -/
def MENU_URL_IDX : Nat := 5
/-- Index of the group id in `menuEntryData`. -/
def MENU_GROUP_IDX : Nat := 6

/-! ## Numbers -/

/-- The first `k ≥ e` with `n < 2 ^ (53 + k)`, trying `fuel` candidates from `e` on. -/
def expFrom : Nat → Nat → Nat → Nat
  | 0, _, e => e
  | fuel + 1, n, e => if n < 2 ^ (53 + e) then e else expFrom fuel n (e + 1)

/-- The binary exponent of the last place of a 53-bit significand that holds
`n`: the least `e` with `n < 2 ^ (53 + e)`.  It is `0` exactly for `n < 2 ^ 53`. -/
def ulpExp (n : Nat) : Nat :=
  expFrom n n 0

/-- Rounding of a natural number to 53 significant bits, to nearest, ties to
the even significand, with the exponent unbounded. -/
def roundDouble (n : Nat) : Nat :=
  let e := ulpExp n
  let q := n / 2 ^ e
  let r := n % 2 ^ e
  if 2 * r < 2 ^ e then q * 2 ^ e
  else if 2 ^ e < 2 * r then (q + 1) * 2 ^ e
  else if q % 2 = 0 then q * 2 ^ e
  else (q + 1) * 2 ^ e

/-- The code of `+Infinity`, `2 ^ 1024`: the least value that no finite double
reaches, and the value at which rounding overflows. -/
def infinityCode : Nat :=
  (2 ^ 128) ^ 8

/-- Rounding to a double: to nearest, ties to even, and `+Infinity` on overflow. -/
def toDouble (n : Nat) : Nat :=
  min (roundDouble n) infinityCode

/-- A JavaScript Number that is a non-negative integer or `+Infinity`, given by
its code `val`: a finite value is its own code and `+Infinity` has the code
`2 ^ 1024`.  The second field says that `val` is such a code, that is, a fixed
point of rounding to a double. -/
structure JsNumber where
  val : Nat
  isDouble : toDouble val = val
deriving DecidableEq

/-- The Number nearest to `n`, which is also the value of the numeric literal
`n`.  The test always succeeds (`toDouble_idem`). -/
def JsNumber.ofNat (n : Nat) : JsNumber :=
  if h : toDouble (toDouble n) = toDouble n then ⟨toDouble n, h⟩ else ⟨0, by decide⟩

instance (n : Nat) : OfNat JsNumber n := ⟨JsNumber.ofNat n⟩

/-- JavaScript `+` on these Numbers: the exact sum, rounded to a double. -/
def JsNumber.add (a b : JsNumber) : JsNumber :=
  JsNumber.ofNat (a.val + b.val)

instance : Add JsNumber := ⟨JsNumber.add⟩

/-! ## Entries, tables and the store -/

/-- A value stored in one slot of a `menuEntryData` array. -/
inductive Slot where
  | num (n : JsNumber)
  | ids (l : List String)
  | str (s : String)
  | null
deriving DecidableEq

/-- The seven-slot array `menuEntryData` of a menu entry, one field per slot,
in slot order: `[pageCnt, pageArray, assessment, assessmentUrl, title, url, group]`. -/
structure MenuEntryData where
  pageCnt : JsNumber
  pageArray : List String
  assessment : String
  assessmentUrl : String
  title : String
  url : String
  group : Option String
deriving DecidableEq

/-- The array itself: the fields of a `MenuEntryData` in slot order. -/
def MenuEntryData.slots (d : MenuEntryData) : List Slot :=
  [ .num d.pageCnt, .ids d.pageArray, .str d.assessment, .str d.assessmentUrl,
    .str d.title, .str d.url,
    match d.group with
    | some g => .str g
    | none => .null ]

/-- An entry object `{ menuEntryData: [...] }`, with the `subMenu` property that
`fixupSubmenu` may add later (`none` while the property is absent). -/
structure Entry where
  menuEntryData : MenuEntryData
  subMenu : Option Ref
deriving DecidableEq

/-- A menu table: a JavaScript array of entry objects carrying the two extra
properties `menuName` and `groupName` (`none` while absent). -/
structure Menu where
  items : List Ref
  menuName : Option String
  groupName : Option String
deriving DecidableEq

instance : Inhabited MenuEntryData := ⟨⟨0, [], "", "", "", "", none⟩⟩
instance : Inhabited Entry := ⟨⟨default, none⟩⟩
instance : Inhabited Menu := ⟨⟨[], none, none⟩⟩

/-- The global state of the page as far as `config.js` touches it: its global
variables, the heap of entry objects, the heap of menu tables, the allocation
counters of the two heaps, and the messages shown by `alert` so far. -/
structure Store where
  titleProgram : String
  titleCourse : String
  docDisclaimer : String
  lesson : Ref
  entries : Ref → Entry
  menus : Ref → Menu
  nextEntry : Nat
  nextMenu : Nat
  alerts : List String

/-- Overwrite one cell of a heap. -/
def heapSet {α : Type} (h : Ref → α) (r : Ref) (v : α) : Ref → α :=
  fun x => if x = r then v else h x

/-- Overwrite the entry object at `r`. -/
def Store.setEntry (s : Store) (r : Ref) (e : Entry) : Store :=
  { s with entries := heapSet s.entries r e }

/-- Overwrite the menu table at `r`. -/
def Store.setMenu (s : Store) (r : Ref) (m : Menu) : Store :=
  { s with menus := heapSet s.menus r m }

/-- JavaScript array indexing `xs[i]`: `none` (undefined) outside the array,
in particular at index `-1`. -/
def arrayGet {α : Type} (xs : List α) (i : Int) : Option α :=
  if i < 0 then none else xs[i.toNat]?

/-- The expression `lesson[lesson.length-1]`. -/
def Store.lessonLast (s : Store) : Option Ref :=
  arrayGet (s.menus s.lesson).items (((s.menus s.lesson).items.length : Int) - 1)

/-- The page count `e.menuEntryData[MENU_PAGECNT_IDX]` of the entry at `r`, as
a natural number (the code of the Number held in the slot). -/
def Store.pageCnt (s : Store) (r : Ref) : Nat :=
  (s.entries r).menuEntryData.pageCnt.val

/-- Result of running a function body: normal completion, or a `TypeError`
thrown part-way, each with the store reached. -/
inductive Outcome where
  | ok (s : Store)
  | typeError (s : Store)

/-- Whether the run threw. -/
def Outcome.isError : Outcome → Bool
  | .ok _ => false
  | .typeError _ => true

/-- The store an outcome ends in. -/
def Outcome.store : Outcome → Store
  | .ok s => s
  | .typeError s => s

/-! ## `showDisclaimer` -/

/-- The function `showDisclaimer`: `alert(''+docDisclaimer)`, with no return value. -/
def showDisclaimer (s : Store) : Store :=
  { s with alerts := s.alerts ++ ["" ++ s.docDisclaimer] }

/-! ## `fixupSubmenu` -/

/-- The loop of `fixupSubmenu`:
`for (var i = 0; i < pLsm.length; i++) lsmCount += pLsm[i].menuEntryData[MENU_PAGECNT_IDX]`,
started with `lsmCount = 0`. -/
def lsmCountOf (s : Store) (pLsm : Ref) : JsNumber :=
  (s.menus pLsm).items.foldl
    (fun lsmCount r => lsmCount + (s.entries r).menuEntryData.pageCnt) 0

/-- The function `fixupSubmenu (pLsm, pName)`, statement by statement.  Storing
to a property of `lesson[lesson.length-1]` throws a `TypeError` when that
expression is undefined. -/
def fixupSubmenu (pLsm : Ref) (pName : String) (s : Store) : Outcome :=
  -- pLsm.menuName = pName;
  let s1 := s.setMenu pLsm { s.menus pLsm with menuName := some pName }
  -- lesson[lesson.length-1].subMenu = pLsm;
  match s1.lessonLast with
  | none => .typeError s1
  | some p =>
    let s2 := s1.setEntry p { s1.entries p with subMenu := some pLsm }
    -- var lsmCount = 0; for (...) { lsmCount += ...; }
    let lsmCount := lsmCountOf s2 pLsm
    -- lesson[lesson.length-1].menuEntryData[MENU_PAGECNT_IDX] += lsmCount;
    match s2.lessonLast with
    | none => .typeError s2
    | some q =>
      let e := s2.entries q
      .ok (s2.setEntry q
        { e with menuEntryData :=
            { e.menuEntryData with pageCnt := e.menuEntryData.pageCnt + lsmCount } })

/-! ## The top-level script -/

/-- The expression `new Array()`: a fresh empty table. -/
def Store.newArray (s : Store) : Ref × Store :=
  (s.nextMenu,
   { s with menus := heapSet s.menus s.nextMenu ⟨[], none, none⟩
            nextMenu := s.nextMenu + 1 })

/-- The statement `t.push({ menuEntryData: d })`: a fresh entry object, with no
`subMenu` property, appended to the table `t`. -/
def Store.push (s : Store) (t : Ref) (d : MenuEntryData) : Store :=
  { s with entries := heapSet s.entries s.nextEntry ⟨d, none⟩
           nextEntry := s.nextEntry + 1
           menus := heapSet s.menus t
             { s.menus t with items := (s.menus t).items ++ [s.nextEntry] } }

/-- A page number as a zero-padded three-digit identifier, the shape of the
page ids of the script: `pad3 7 = "007"`. -/
def pad3 (n : Nat) : String :=
  String.mk ((List.replicate (3 - (Nat.toDigits 10 n).length) '0') ++ Nat.toDigits 10 n)

/-- The seventeen `menuEntryData` literals pushed onto `lesson`, in the order
of the `lesson.push` statements of the script. -/
def lessonData : List MenuEntryData :=
  [ ⟨1, ["001"], "none", "#", "Welcome", "lesson00/00_001.htm", none⟩,
    ⟨16, ["001","002","003","005","006","007","008","009","010","011","012","013","014","015","016","017"],
      "none", "#", "Section 1: Introduction (Lesson 1)", "lesson01/01_001.htm", some "01"⟩,
    ⟨13, ["001","002","003","004","005","006","007","008","009","010","011","012","013"],
      "none", "#", "Section 2: Safety Planning (Lesson 2)", "lesson02/02_001.htm", some "02"⟩,
    ⟨1, ["001"], "none", "#", "Section 3: Improve the Situation: ", "lesson03/03_001.htm", none⟩,
    ⟨24, ["001","002","003","004","005","006","007","008","009","010","011","012","013","014","015","016","017","018","019","020","021","022","023","024"],
      "none", "#", "Section 3: Understand PTSD (Lesson 3)", "lesson04/04_001.htm", some "04"⟩,
    ⟨14, ["001","002","003","004","005","006","007","008","009","010","011","012","013","014"],
      "none", "#", "Section 3: Increase Positive Behaviors (Lesson 4)", "lesson05/05_001.htm", some "05"⟩,
    ⟨1, ["001"], "none", "#", "Section 4: Care for Yourself", "lesson06/06_001.htm", none⟩,
    ⟨15, ["001","002","003","004","005","006","007","008","009","010","011","012","013","014","015"],
      "none", "#", "Section 4: Use Self-Rewards and Social Support (Lesson 5)", "lesson07/07_001.htm", some "07"⟩,
    ⟨13, ["001","002","003","004","005","006","007","008","009","010","011","012","013"],
      "none", "#", "Section 4: Improve Problem Solving (Lesson 6)", "lesson08/08_001.htm", some "08"⟩,
    ⟨17, ["001","002","003","004","005","006","007","008","009","010","011","012","013","014","015","016","017"],
      "none", "#", "Section 4: Reduce Stress and Improve Sleep (Lesson 7)", "lesson09/09_001.htm", some "09"⟩,
    ⟨1, ["001"], "none", "#", "Section 5: Rebuild Your Relationship", "lesson10/10_001.htm", none⟩,
    ⟨13, ["001","002","003","004","005","006","007","008","009","010","011","012","013"],
      "none", "#", "Section 5: Practice Positive Communication (Lesson 8)", "lesson11/11_001.htm", some "11"⟩,
    ⟨13, ["001","002","003","004","005","006","007","008","009","010","011","012","013"],
      "none", "#", "Section 5: Share Pleasant Activities (Lesson 9)", "lesson12/12_001.htm", some "12"⟩,
    ⟨1, ["001"], "none", "#", "Section 6: Get Your Veteran into Care ", "lesson13/13_001.htm", none⟩,
    ⟨13, ["001","002","003","004","005","006","007","008","009","010","011","012","013"],
      "none", "#", "Section 6: Explore Treatment Options (Lesson 10)", "lesson14/14_001.htm", some "14"⟩,
    ⟨15, ["001","002","003","004","005","006","007","008","009","010","011","012","013","014","015"],
      "none", "#", "Section 6: Discuss Treatment Options with Your Veteran (Lesson 11)", "lesson15/15_001.htm", some "15"⟩,
    ⟨20, ["001","002","003","004","005","006","007","008","009","010","011","012","013","014","015","016","017","018","019","020"],
      "none", "#", "Section 6: Supporting Your Loved One's Treatment (Lesson 12)", "lesson16/16_001.htm", some "16"⟩ ]

/-- The store before the script runs: nothing allocated, nothing shown. -/
def blank : Store :=
  { titleProgram := "", titleCourse := "", docDisclaimer := "", lesson := 0,
    entries := fun _ => default, menus := fun _ => default,
    nextEntry := 0, nextMenu := 0, alerts := [] }

/-- The variable declarations at the top of the script, up to and including
`var lesson = new Array()`. -/
def declared : Store :=
  let s0 := { blank with
    titleProgram := ""
    titleCourse := "CRAFT: Help with PTSD for you and your family"
    docDisclaimer := "This document will open in a new window or tab. Once you have completed your use of this document, close the window or tab that contains it. The course is still open and you will be taken back to your location in the course." }
  let (r, s1) := s0.newArray
  { s1 with lesson := r }

/-- The store once `config.js` has run to its end: the seventeen pushes in
order, then `lesson.groupName = titleCourse; lesson.menuName = 'main'`. -/
def loaded : Store :=
  let s := lessonData.foldl (fun s d => s.push s.lesson d) declared
  let s := s.setMenu s.lesson { s.menus s.lesson with groupName := some s.titleCourse }
  s.setMenu s.lesson { s.menus s.lesson with menuName := some "main" }

/-- The entry objects of the table `t`, in table order. -/
def Store.entriesOf (s : Store) (t : Ref) : List Entry :=
  (s.menus t).items.map s.entries

/-- The exact sum of the page counts of the entries of the table `t`. -/
def Store.pageSum (s : Store) (t : Ref) : Nat :=
  ((s.menus t).items.map s.pageCnt).sum

/-- The store `fixupSubmenu pLsm pName` completes in when `lesson[lesson.length-1]`
is the entry `p`, written as one update of the store it starts from. -/
def attach (pLsm : Ref) (pName : String) (p : Ref) (s : Store) : Store :=
  { s with
    menus := heapSet s.menus pLsm { s.menus pLsm with menuName := some pName }
    entries := heapSet s.entries p
      { menuEntryData :=
          { (s.entries p).menuEntryData with
            pageCnt := (s.entries p).menuEntryData.pageCnt + lsmCountOf s pLsm }
        subMenu := some pLsm } }

/-! ## Stores used as concrete inputs -/

/-- The statement `t.push(e)` for an entry object `e` that already exists. -/
def Store.pushRef (s : Store) (t r : Ref) : Store :=
  s.setMenu t { s.menus t with items := (s.menus t).items ++ [r] }

/-- After loading, a caller builds a submenu of two entries:
`lsm = new Array(); lsm.push({ menuEntryData: [2, ...] }); lsm.push({ menuEntryData: [3, ...] })`.
The pair is the reference held by `lsm` and the store reached. -/
def withSubmenu : Ref × Store :=
  let (lsm, s) := loaded.newArray
  let s := s.push lsm ⟨2, ["001","002"], "none", "#", "Part A", "lesson16/16_021.htm", none⟩
  (lsm, s.push lsm ⟨3, ["001","002","003"], "none", "#", "Part B", "lesson16/16_023.htm", none⟩)

/-- After loading, a caller builds an empty submenu: `lsm = new Array()`. -/
def withEmptySubmenu : Ref × Store :=
  loaded.newArray

/-- After loading, a caller builds a submenu holding the last top-level entry
itself: `lsm = new Array(); lsm.push(lesson[lesson.length-1])`. -/
def withSharedEntry : Ref × Store :=
  let (lsm, s) := loaded.newArray
  match s.lessonLast with
  | some p => (lsm, s.pushRef lsm p)
  | none => (lsm, s)

/-- The store after `fixupSubmenu(lsm, "treatment")` on `withSubmenu`. -/
def afterFirstAttach : Store :=
  (fixupSubmenu withSubmenu.1 "treatment" withSubmenu.2).store

/-- The store after a second `fixupSubmenu(lsm, "treatment")` with the same
submenu, the last entry already having it attached. -/
def afterSecondAttach : Store :=
  (fixupSubmenu withSubmenu.1 "treatment" afterFirstAttach).store

/-- After the first attachment, a caller builds a further, empty submenu:
`lsm2 = new Array()`. -/
def withSecondSubmenu : Ref × Store :=
  afterFirstAttach.newArray

/-- After loading, a caller builds a submenu of two entries whose page counts
are `9007199254740992`, which is `2 ^ 53`, and `1`. -/
def withHugeSubmenu : Ref × Store :=
  let (lsm, s) := loaded.newArray
  let s := s.push lsm
    ⟨9007199254740992, ["001"], "none", "#", "Part A", "lesson16/16_021.htm", none⟩
  (lsm, s.push lsm ⟨1, ["001"], "none", "#", "Part B", "lesson16/16_022.htm", none⟩)

/-- A top-level table whose only entry has `2 ^ 53` pages, with a submenu of one
entry that has one page:
`lesson.push({ menuEntryData: [9007199254740992, ...] }); lsm = new Array(); lsm.push({ menuEntryData: [1, ...] })`
right after `var lesson = new Array()`. -/
def withHugeParent : Ref × Store :=
  let s := declared.push declared.lesson
    ⟨9007199254740992, ["001"], "none", "#", "Welcome", "lesson00/00_001.htm", none⟩
  let (lsm, s) := s.newArray
  (lsm, s.push lsm ⟨1, ["001"], "none", "#", "Part A", "lesson00/00_002.htm", none⟩)

/-! ## Predicates on urls -/

/-- Whether `c` may occur in a URI scheme: a letter, a digit, `+`, `-` or `.`. -/
def isSchemeChar (c : Char) : Bool :=
  c.isAlpha || c.isDigit || c == '+' || c == '-' || c == '.'

/-- Whether `u` starts with a URI scheme, `letter (scheme char)* ':'`. -/
def hasScheme (u : String) : Bool :=
  let pre := u.data.takeWhile (fun c => c != ':')
  decide (pre.length < u.data.length) &&
    (match pre with
     | [] => false
     | c :: cs => c.isAlpha && cs.all isSchemeChar)

/-- A non-empty relative path: no scheme and no leading `/`. -/
def isRelativePath (u : String) : Bool :=
  u.data != [] && u.data.head? != some '/' && !hasScheme u

set_option maxRecDepth 8000

/-! ## Lemmas on rounding and on Numbers -/

theorem expFrom_spec (fuel n e : Nat) (hlow : e = 0 ∨ 2 ^ (52 + e) ≤ n)
    (hfuel : n < 2 ^ (53 + e + fuel)) :
    n < 2 ^ (53 + expFrom fuel n e) ∧
      (expFrom fuel n e = 0 ∨ 2 ^ (52 + expFrom fuel n e) ≤ n) := by
  induction fuel generalizing e with
  | zero => exact ⟨by simpa [expFrom] using hfuel, by simpa [expFrom] using hlow⟩
  | succ fuel ih =>
    unfold expFrom
    by_cases h : n < 2 ^ (53 + e)
    · rw [if_pos h]; exact ⟨h, hlow⟩
    · rw [if_neg h]
      apply ih (e + 1)
      · right
        have : 52 + (e + 1) = 53 + e := by omega
        rw [this]; exact Nat.le_of_not_lt h
      · have : 53 + (e + 1) + fuel = 53 + e + (fuel + 1) := by omega
        rw [this]; exact hfuel

theorem ulpExp_spec (n : Nat) :
    n < 2 ^ (53 + ulpExp n) ∧ (ulpExp n = 0 ∨ 2 ^ (52 + ulpExp n) ≤ n) := by
  apply expFrom_spec n n 0 (Or.inl rfl)
  calc n < 2 ^ n := Nat.lt_two_pow n
    _ ≤ 2 ^ (53 + 0 + n) := Nat.pow_le_pow_right (by decide) (by omega)

theorem roundDouble_of_dvd (n : Nat) (h : 2 ^ ulpExp n ∣ n) : roundDouble n = n := by
  unfold roundDouble
  have hr : n % 2 ^ ulpExp n = 0 := Nat.mod_eq_zero_of_dvd h
  have hpos : 0 < 2 ^ ulpExp n := Nat.two_pow_pos _
  simp only [hr, Nat.mul_zero, hpos, if_true]
  exact Nat.div_mul_cancel h

theorem roundDouble_mul_two_pow (m k : Nat) (hm : m ≤ 2 ^ 53) :
    roundDouble (m * 2 ^ k) = m * 2 ^ k := by
  apply roundDouble_of_dvd
  obtain ⟨_, hmin⟩ := ulpExp_spec (m * 2 ^ k)
  by_cases hle : ulpExp (m * 2 ^ k) ≤ k
  · exact Dvd.dvd.mul_left (Nat.pow_dvd_pow 2 hle) m
  · have hne : ulpExp (m * 2 ^ k) ≠ 0 := by omega
    have h1 : 2 ^ (52 + ulpExp (m * 2 ^ k)) ≤ m * 2 ^ k := by
      rcases hmin with h0 | h1
      · exact absurd h0 hne
      · exact h1
    have h2 : m * 2 ^ k ≤ 2 ^ (53 + k) := by
      rw [Nat.pow_add]; exact Nat.mul_le_mul_right _ hm
    have h3 : 52 + ulpExp (m * 2 ^ k) ≤ 53 + k :=
      (Nat.pow_le_pow_iff_right (by decide)).1 (Nat.le_trans h1 h2)
    have h4 : ulpExp (m * 2 ^ k) = k + 1 := by omega
    rw [h4] at h1 ⊢
    have h5 : m * 2 ^ k = 2 ^ (53 + k) := by
      apply Nat.le_antisymm h2
      have : 52 + (k + 1) = 53 + k := by omega
      rw [this] at h1; exact h1
    rw [h5]
    exact Nat.pow_dvd_pow 2 (by omega)

theorem roundDouble_idem (n : Nat) : roundDouble (roundDouble n) = roundDouble n := by
  obtain ⟨hlt, _⟩ := ulpExp_spec n
  have hq : n / 2 ^ ulpExp n < 2 ^ 53 := by
    rw [Nat.div_lt_iff_lt_mul (Nat.two_pow_pos _), ← Nat.pow_add]; exact hlt
  have key : ∀ q, q ≤ 2 ^ 53 →
      roundDouble (q * 2 ^ ulpExp n) = q * 2 ^ ulpExp n :=
    fun q hq => roundDouble_mul_two_pow q _ hq
  unfold roundDouble
  simp only []
  split
  · exact key _ (Nat.le_of_lt hq)
  · split
    · exact key _ hq
    · split
      · exact key _ (Nat.le_of_lt hq)
      · exact key _ hq

theorem infinityCode_eq : infinityCode = 2 ^ 1024 := by
  norm_num [infinityCode]

theorem toDouble_idem (n : Nat) : toDouble (toDouble n) = toDouble n := by
  unfold toDouble
  by_cases h : roundDouble n ≤ infinityCode
  · rw [Nat.min_eq_left h, roundDouble_idem, Nat.min_eq_left h]
  · have h' : infinityCode ≤ roundDouble n := Nat.le_of_lt (Nat.lt_of_not_le h)
    rw [Nat.min_eq_right h']
    have hr : roundDouble infinityCode = infinityCode := by
      have := roundDouble_mul_two_pow 1 1024 (Nat.one_le_two_pow)
      rw [Nat.one_mul, ← infinityCode_eq] at this
      exact this
    rw [hr, Nat.min_self]

theorem toDouble_of_le (n : Nat) (h : n ≤ 2 ^ 53) : toDouble n = n := by
  unfold toDouble
  have hr : roundDouble n = n := by
    have := roundDouble_mul_two_pow n 0 h
    simpa using this
  rw [hr]
  apply Nat.min_eq_left
  have h53 : (53 : Nat) ≤ 1024 := by decide
  have hpow : ∀ a b : Nat, a ≤ b → 2 ^ a ≤ 2 ^ b :=
    fun a b hab => Nat.pow_le_pow_right (by decide) hab
  rw [infinityCode_eq]
  exact Nat.le_trans h (hpow 53 1024 h53)

theorem JsNumber.ofNat_val (n : Nat) : (JsNumber.ofNat n).val = toDouble n := by
  unfold JsNumber.ofNat
  rw [dif_pos (toDouble_idem n)]

theorem JsNumber.add_val (a b : JsNumber) : (a + b).val = toDouble (a.val + b.val) :=
  JsNumber.ofNat_val _

theorem JsNumber.eq_of_val (a b : JsNumber) (h : a.val = b.val) : a = b := by
  cases a; cases b
  simp only [] at h
  subst h
  rfl

theorem JsNumber.zero_val : (0 : JsNumber).val = 0 := by decide

theorem JsNumber.add_zero (a : JsNumber) : a + 0 = a := by
  apply JsNumber.eq_of_val
  rw [JsNumber.add_val, JsNumber.zero_val, Nat.add_zero, a.isDouble]

theorem JsNumber.add_val_of_le (a b : JsNumber) (h : a.val + b.val ≤ 2 ^ 53) :
    (a + b).val = a.val + b.val := by
  rw [JsNumber.add_val, toDouble_of_le _ h]

/-! ## Lemmas on the store and on `fixupSubmenu` -/

theorem arrayGet_last {α : Type} (xs : List α) :
    arrayGet xs ((xs.length : Int) - 1) = xs.getLast? := by
  unfold arrayGet
  induction xs using List.reverseRecOn with
  | nil => simp
  | append_singleton ys y _ =>
    have h1 : ¬ (((ys ++ [y]).length : Int) - 1 < 0) := by
      simp only [List.length_append, List.length_singleton]; omega
    have h2 : (((ys ++ [y]).length : Int) - 1).toNat = ys.length := by
      simp only [List.length_append, List.length_singleton]; omega
    rw [if_neg h1, h2]; simp

theorem lessonLast_eq (s : Store) : s.lessonLast = (s.menus s.lesson).items.getLast? :=
  arrayGet_last _

theorem lessonLast_eq_none_iff (s : Store) :
    s.lessonLast = none ↔ (s.menus s.lesson).items = [] := by
  rw [lessonLast_eq]; exact List.getLast?_eq_none_iff

theorem lessonLast_of_ne_nil (s : Store) (h : (s.menus s.lesson).items ≠ []) :
    s.lessonLast = some ((s.menus s.lesson).items.getLast h) := by
  rw [lessonLast_eq]; exact List.getLast?_eq_getLast _ h

theorem heapSet_same {α : Type} (h : Ref → α) (r : Ref) (v : α) : heapSet h r v r = v := by
  simp [heapSet]

theorem heapSet_other {α : Type} (h : Ref → α) (r x : Ref) (v : α) (hx : x ≠ r) :
    heapSet h r v x = h x := by
  simp [heapSet, hx]

theorem heapSet_heapSet {α : Type} (h : Ref → α) (r : Ref) (v w : α) :
    heapSet (heapSet h r v) r w = heapSet h r w := by
  funext x; unfold heapSet; split <;> rfl

theorem items_heapSet_menuName (s : Store) (pLsm : Ref) (pName : String) (t : Ref) :
    (heapSet s.menus pLsm { s.menus pLsm with menuName := some pName } t).items
      = (s.menus t).items := by
  unfold heapSet; split
  · next h => subst h; rfl
  · rfl

theorem lsmCountOf_congr (s t : Store) (pLsm : Ref)
    (hi : (t.menus pLsm).items = (s.menus pLsm).items)
    (he : ∀ r ∈ (s.menus pLsm).items,
      (t.entries r).menuEntryData.pageCnt = (s.entries r).menuEntryData.pageCnt) :
    lsmCountOf t pLsm = lsmCountOf s pLsm := by
  unfold lsmCountOf
  rw [hi]
  apply List.foldl_ext
  intro a r hr
  rw [he r hr]

theorem fixupSubmenu_of_last (pLsm : Ref) (pName : String) (s : Store) (p : Ref)
    (hp : s.lessonLast = some p) :
    fixupSubmenu pLsm pName s = .ok (attach pLsm pName p s) := by
  have h1 : (s.setMenu pLsm { s.menus pLsm with menuName := some pName }).lessonLast = some p := by
    rw [← hp]; simp only [Store.lessonLast, Store.setMenu, items_heapSet_menuName]
  have hcnt : lsmCountOf ((s.setMenu pLsm { s.menus pLsm with menuName := some pName }).setEntry p
        { (s.setMenu pLsm { s.menus pLsm with menuName := some pName }).entries p with
          subMenu := some pLsm }) pLsm = lsmCountOf s pLsm := by
    apply lsmCountOf_congr
    · simp only [Store.setEntry, Store.setMenu, items_heapSet_menuName]
    · intro r _
      simp only [Store.setEntry, Store.setMenu, heapSet]
      split
      · next h => subst h; rfl
      · rfl
  unfold fixupSubmenu
  simp only [h1]
  have h2 : ((s.setMenu pLsm { s.menus pLsm with menuName := some pName }).setEntry p
        { (s.setMenu pLsm { s.menus pLsm with menuName := some pName }).entries p with
          subMenu := some pLsm }).lessonLast = some p := by
    rw [← h1]; rfl
  simp only [h2, hcnt]
  simp only [Store.setEntry, Store.setMenu, attach, heapSet_heapSet, heapSet_same]

theorem fixupSubmenu_of_nil (pLsm : Ref) (pName : String) (s : Store)
    (h : (s.menus s.lesson).items = []) :
    fixupSubmenu pLsm pName s
      = .typeError (s.setMenu pLsm { s.menus pLsm with menuName := some pName }) := by
  have h1 : (s.setMenu pLsm { s.menus pLsm with menuName := some pName }).lessonLast = none := by
    rw [← (lessonLast_eq_none_iff s).2 h]
    simp only [Store.lessonLast, Store.setMenu, items_heapSet_menuName]
  unfold fixupSubmenu
  simp only [h1]

theorem foldl_add_val (f : Ref → JsNumber) (l : List Ref) (a : JsNumber)
    (h : a.val + (l.map (fun r => (f r).val)).sum ≤ 2 ^ 53) :
    (l.foldl (fun acc r => acc + f r) a).val = a.val + (l.map (fun r => (f r).val)).sum := by
  induction l generalizing a with
  | nil => simp
  | cons x xs ih =>
    simp only [List.map_cons, List.sum_cons, List.foldl_cons] at h ⊢
    have hx : (a + f x).val = a.val + (f x).val :=
      JsNumber.add_val_of_le a (f x) (by omega)
    rw [ih (a + f x) (by rw [hx]; omega), hx]
    omega

theorem lsmCountOf_val (s : Store) (pLsm : Ref) (h : s.pageSum pLsm ≤ 2 ^ 53) :
    (lsmCountOf s pLsm).val = s.pageSum pLsm := by
  unfold lsmCountOf
  have h0 := foldl_add_val (fun r => (s.entries r).menuEntryData.pageCnt)
    (s.menus pLsm).items 0 (by rw [JsNumber.zero_val, Nat.zero_add]; exact h)
  rw [h0, JsNumber.zero_val, Nat.zero_add]
  rfl

theorem lsmCountOf_of_nil (s : Store) (pLsm : Ref) (h : (s.menus pLsm).items = []) :
    lsmCountOf s pLsm = 0 := by
  unfold lsmCountOf
  rw [h]; rfl

theorem pageSum_attach_of_not_mem (pLsm : Ref) (pName : String) (p : Ref) (s : Store)
    (t : Ref) (h : p ∉ (s.menus t).items) :
    (attach pLsm pName p s).pageSum t = s.pageSum t := by
  unfold Store.pageSum
  simp only [attach, items_heapSet_menuName]
  apply congrArg
  apply List.map_congr_left
  intro r hr
  have hne : r ≠ p := fun e => h (e ▸ hr)
  simp only [Store.pageCnt, heapSet_other _ _ _ _ hne]

theorem lsmCountOf_attach_of_not_mem (pLsm : Ref) (pName : String) (p : Ref) (s : Store)
    (t : Ref) (h : p ∉ (s.menus t).items) :
    lsmCountOf (attach pLsm pName p s) t = lsmCountOf s t := by
  apply lsmCountOf_congr
  · simp only [attach, items_heapSet_menuName]
  · intro r hr
    have hne : r ≠ p := fun e => h (e ▸ hr)
    simp only [attach, heapSet_other _ _ _ _ hne]

theorem lessonLast_attach (pLsm : Ref) (pName : String) (p : Ref) (s : Store) :
    (attach pLsm pName p s).lessonLast = s.lessonLast := by
  simp only [Store.lessonLast, attach, items_heapSet_menuName]

theorem pageCnt_attach (pLsm : Ref) (pName : String) (p : Ref) (s : Store) :
    (attach pLsm pName p s).pageCnt p
      = toDouble (s.pageCnt p + (lsmCountOf s pLsm).val) := by
  simp only [Store.pageCnt, attach, heapSet_same, JsNumber.add_val]

theorem pageCnt_attach_of_le (pLsm : Ref) (pName : String) (p : Ref) (s : Store)
    (h : s.pageCnt p + s.pageSum pLsm ≤ 2 ^ 53) :
    (attach pLsm pName p s).pageCnt p = s.pageCnt p + s.pageSum pLsm := by
  rw [pageCnt_attach, lsmCountOf_val s pLsm (by omega), toDouble_of_le _ h]

theorem Store.eq_of_fields (a b : Store)
    (h1 : a.titleProgram = b.titleProgram) (h2 : a.titleCourse = b.titleCourse)
    (h3 : a.docDisclaimer = b.docDisclaimer) (h4 : a.lesson = b.lesson)
    (h5 : a.entries = b.entries) (h6 : a.menus = b.menus)
    (h7 : a.nextEntry = b.nextEntry) (h8 : a.nextMenu = b.nextMenu)
    (h9 : a.alerts = b.alerts) : a = b := by
  cases a; cases b
  simp only [] at h1 h2 h3 h4 h5 h6 h7 h8 h9
  subst h1 h2 h3 h4 h5 h6 h7 h8 h9
  rfl

theorem attach_eq_self (pLsm : Ref) (pName : String) (p : Ref) (s : Store)
    (hm : (s.menus pLsm).menuName = some pName)
    (hs : (s.entries p).subMenu = some pLsm)
    (hc : (s.entries p).menuEntryData.pageCnt + lsmCountOf s pLsm
      = (s.entries p).menuEntryData.pageCnt) :
    attach pLsm pName p s = s := by
  apply Store.eq_of_fields <;> try rfl
  · show heapSet s.entries p
      { menuEntryData :=
          { (s.entries p).menuEntryData with
            pageCnt := (s.entries p).menuEntryData.pageCnt + lsmCountOf s pLsm }
        subMenu := some pLsm } = s.entries
    funext r
    rw [hc, ← hs]
    unfold heapSet
    split
    · next hr => subst hr; rfl
    · rfl
  · show heapSet s.menus pLsm { s.menus pLsm with menuName := some pName } = s.menus
    funext t
    rw [← hm]
    unfold heapSet
    split
    · next ht => subst ht; rfl
    · rfl

/-! ## The claims -/

/-- C1 (amended): for every store whose top-level table `lesson` is non-empty,
with last entry `p`, and every submenu table `pLsm` such that the page count
of `p` plus the sum of the page counts of the entries of `pLsm` is at most
`2 ^ 53`, `fixupSubmenu pLsm pName` completes, `p` is still the last entry of
`lesson`, and the page count of `p` afterwards is its page count before the
call plus the sum of the page counts of the entries of `pLsm` as passed to the
call; when `pLsm` does not hold `p` itself, that sum is the same after the
call. -/
theorem fixupSubmenu_adds_submenu_pages (s : Store) (pLsm : Ref) (pName : String) (p : Ref)
    (hp : s.lessonLast = some p)
    (hb : s.pageCnt p + s.pageSum pLsm ≤ 2 ^ 53) :
    ∃ s', fixupSubmenu pLsm pName s = .ok s' ∧
      s'.lessonLast = some p ∧
      s'.pageCnt p = s.pageCnt p + s.pageSum pLsm ∧
      (p ∉ (s.menus pLsm).items → s'.pageSum pLsm = s.pageSum pLsm) := by
  refine ⟨_, fixupSubmenu_of_last pLsm pName s _ hp, ?_, ?_, ?_⟩
  · rw [lessonLast_attach]; exact hp
  · exact pageCnt_attach_of_le _ _ _ _ hb
  · exact pageSum_attach_of_not_mem _ _ _ _ _

/-- Witness for C1 (amended): on the loaded table with a two-entry submenu
(page counts 2 and 3), the last entry goes from 20 pages to 25. -/
theorem fixupSubmenu_adds_submenu_pages_witness :
    (withSubmenu.2.menus withSubmenu.2.lesson).items ≠ [] ∧
    withSubmenu.2.lessonLast = some 16 ∧
    withSubmenu.2.pageCnt 16 = 20 ∧ withSubmenu.2.pageSum withSubmenu.1 = 5 ∧
    ∃ s', fixupSubmenu withSubmenu.1 "treatment" withSubmenu.2 = .ok s' ∧
      s'.lessonLast = some 16 ∧
      s'.pageCnt 16 = withSubmenu.2.pageCnt 16 + withSubmenu.2.pageSum withSubmenu.1 ∧
      (16 ∉ (withSubmenu.2.menus withSubmenu.1).items →
        s'.pageSum withSubmenu.1 = withSubmenu.2.pageSum withSubmenu.1) :=
  ⟨by decide, by decide, by decide, by decide,
   fixupSubmenu_adds_submenu_pages withSubmenu.2 withSubmenu.1 "treatment" 16
     (by decide) (by decide)⟩

/-- C1 (as stated) fails: the loaded table with a submenu of two entries whose
page counts are `2 ^ 53 = 9007199254740992` and `1`.  The last entry has 20
pages before the call and the counts of the submenu sum to 9007199254740993;
the loop leaves `lsmCount` at 9007199254740992, since `2 ^ 53 + 1` is not a
double and rounds to `2 ^ 53`, and the call leaves the last entry at
9007199254741012 pages, not at 20 + 9007199254740993 = 9007199254741013. -/
theorem fixupSubmenu_rounds_large_counts :
    (withHugeSubmenu.2.menus withHugeSubmenu.2.lesson).items ≠ [] ∧
    withHugeSubmenu.2.lessonLast = some 16 ∧
    (withHugeSubmenu.2.menus withHugeSubmenu.1).items.map withHugeSubmenu.2.pageCnt
      = [9007199254740992, 1] ∧
    withHugeSubmenu.2.pageCnt 16 = 20 ∧
    withHugeSubmenu.2.pageSum withHugeSubmenu.1 = 9007199254740993 ∧
    (lsmCountOf withHugeSubmenu.2 withHugeSubmenu.1).val = 9007199254740992 ∧
    (fixupSubmenu withHugeSubmenu.1 "treatment" withHugeSubmenu.2).isError = false ∧
    (fixupSubmenu withHugeSubmenu.1 "treatment" withHugeSubmenu.2).store.pageCnt 16
      = 9007199254741012 ∧
    (fixupSubmenu withHugeSubmenu.1 "treatment" withHugeSubmenu.2).store.pageCnt 16
      ≠ withHugeSubmenu.2.pageCnt 16 + withHugeSubmenu.2.pageSum withHugeSubmenu.1 := by
  decide

/-- C5: `fixupSubmenu` throws if and only if the top-level table `lesson` is
empty; in particular, on a non-empty table it completes for every submenu
table, whether or not the last entry already has a submenu.  When the submenu
is empty, the page count of the last entry is unchanged and its `subMenu` is
that empty table. -/
theorem fixupSubmenu_throws_iff_lesson_empty (s : Store) (pLsm : Ref) (pName : String) :
    ((fixupSubmenu pLsm pName s).isError = true ↔ (s.menus s.lesson).items = []) ∧
    ((s.menus s.lesson).items ≠ [] → ∃ s', fixupSubmenu pLsm pName s = .ok s') ∧
    ((s.menus s.lesson).items ≠ [] → (s.menus pLsm).items = [] →
      ∃ p s', s.lessonLast = some p ∧ fixupSubmenu pLsm pName s = .ok s' ∧
        s'.pageCnt p = s.pageCnt p ∧ (s'.entries p).subMenu = some pLsm ∧
        (s'.menus pLsm).items = []) := by
  refine ⟨?_, ?_, ?_⟩
  · constructor
    · intro he
      by_contra hne
      rw [fixupSubmenu_of_last pLsm pName s _ (lessonLast_of_ne_nil s hne)] at he
      exact Bool.noConfusion he
    · intro hnil
      rw [fixupSubmenu_of_nil pLsm pName s hnil]; rfl
  · intro hne
    exact ⟨_, fixupSubmenu_of_last pLsm pName s _ (lessonLast_of_ne_nil s hne)⟩
  · intro hne hS
    have hp := lessonLast_of_ne_nil s hne
    refine ⟨_, _, hp, fixupSubmenu_of_last pLsm pName s _ hp, ?_, ?_, ?_⟩
    · simp only [Store.pageCnt, attach, heapSet_same, lsmCountOf_of_nil s pLsm hS,
        JsNumber.add_zero]
    · simp only [attach, heapSet_same]
    · simp only [attach, items_heapSet_menuName]; exact hS

/-- Witness for C5: the loaded table whose last entry already carries a
two-entry submenu, given a second, empty submenu; and the empty table right
after `var lesson = new Array()`, on which the call throws. -/
theorem fixupSubmenu_throws_iff_lesson_empty_witness :
    (withSecondSubmenu.2.menus withSecondSubmenu.2.lesson).items ≠ [] ∧
    (withSecondSubmenu.2.menus withSecondSubmenu.1).items = [] ∧
    (withSecondSubmenu.2.entries 16).subMenu = some withSubmenu.1 ∧
    (∃ p s', withSecondSubmenu.2.lessonLast = some p ∧
        fixupSubmenu withSecondSubmenu.1 "empty" withSecondSubmenu.2 = .ok s' ∧
        s'.pageCnt p = withSecondSubmenu.2.pageCnt p ∧
        (s'.entries p).subMenu = some withSecondSubmenu.1 ∧
        (s'.menus withSecondSubmenu.1).items = []) ∧
    (fixupSubmenu withEmptySubmenu.1 "empty" declared).isError = true :=
  ⟨by decide, by decide, by decide,
   (fixupSubmenu_throws_iff_lesson_empty withSecondSubmenu.2
      withSecondSubmenu.1 "empty").2.2 (by decide) (by decide),
   (fixupSubmenu_throws_iff_lesson_empty declared withEmptySubmenu.1 "empty").1.2 (by decide)⟩

/-- C4 (amended): for every store whose top-level table is non-empty, with
last entry `p`, and every submenu table `pLsm` that does not hold `p` (so that,
in particular, `pLsm` is not the top-level table) and is such that the page
count of `p` plus twice the sum of the page counts of `pLsm` is at most
`2 ^ 53`, two calls of `fixupSubmenu pLsm pName` in succession both complete
and raise the page count of `p` by exactly twice that sum; and the second call
leaves the store reached by the first unchanged exactly when the sum is 0. -/
theorem fixupSubmenu_twice_double_counts (s : Store) (pLsm : Ref) (pName : String) (p : Ref)
    (hp : s.lessonLast = some p)
    (hnot : p ∉ (s.menus pLsm).items)
    (hb : s.pageCnt p + 2 * s.pageSum pLsm ≤ 2 ^ 53) :
    ∃ s1 s2, fixupSubmenu pLsm pName s = .ok s1 ∧
      fixupSubmenu pLsm pName s1 = .ok s2 ∧ s2.lessonLast = some p ∧
      s2.pageCnt p = s.pageCnt p + 2 * s.pageSum pLsm ∧
      (s2 = s1 ↔ s.pageSum pLsm = 0) := by
  have hp1 : (attach pLsm pName p s).lessonLast = some p := by
    rw [lessonLast_attach]; exact hp
  have hc1 : (attach pLsm pName p s).pageCnt p = s.pageCnt p + s.pageSum pLsm :=
    pageCnt_attach_of_le _ _ _ _ (by omega)
  have hs1 : (attach pLsm pName p s).pageSum pLsm = s.pageSum pLsm :=
    pageSum_attach_of_not_mem _ _ _ _ _ hnot
  have hc2 : (attach pLsm pName p (attach pLsm pName p s)).pageCnt p
      = s.pageCnt p + 2 * s.pageSum pLsm := by
    rw [pageCnt_attach_of_le _ _ _ _ (by rw [hc1, hs1]; omega), hc1, hs1]
    omega
  refine ⟨_, _, fixupSubmenu_of_last pLsm pName s _ hp,
    fixupSubmenu_of_last pLsm pName _ _ hp1, ?_, hc2, ?_⟩
  · rw [lessonLast_attach]; exact hp1
  · constructor
    · intro heq
      have h1 := congrArg (fun x => x.pageCnt p) heq
      simp only [] at h1
      rw [hc2, hc1] at h1
      omega
    · intro h0
      apply attach_eq_self
      · simp only [attach, heapSet_same]
      · simp only [attach, heapSet_same]
      · have hl : lsmCountOf (attach pLsm pName p s) pLsm = 0 := by
          rw [lsmCountOf_attach_of_not_mem _ _ _ _ _ hnot]
          apply JsNumber.eq_of_val
          rw [lsmCountOf_val s pLsm (by omega), h0, JsNumber.zero_val]
        rw [hl, JsNumber.add_zero]

/-- Witness for C4 (amended): the loaded table with a two-entry submenu of 5
pages in all; two calls take the last entry from 20 pages to 30. -/
theorem fixupSubmenu_twice_double_counts_witness :
    (withSubmenu.2.menus withSubmenu.2.lesson).items ≠ [] ∧
    withSubmenu.2.lessonLast = some 16 ∧
    16 ∉ (withSubmenu.2.menus withSubmenu.1).items ∧
    withSubmenu.2.pageCnt 16 = 20 ∧ withSubmenu.2.pageSum withSubmenu.1 = 5 ∧
    ∃ s1 s2, fixupSubmenu withSubmenu.1 "treatment" withSubmenu.2 = .ok s1 ∧
      fixupSubmenu withSubmenu.1 "treatment" s1 = .ok s2 ∧ s2.lessonLast = some 16 ∧
      s2.pageCnt 16 = withSubmenu.2.pageCnt 16 + 2 * withSubmenu.2.pageSum withSubmenu.1 ∧
      (s2 = s1 ↔ withSubmenu.2.pageSum withSubmenu.1 = 0) :=
  ⟨by decide, by decide, by decide, by decide, by decide,
   fixupSubmenu_twice_double_counts withSubmenu.2 withSubmenu.1 "treatment" 16
     (by decide) (by decide) (by decide)⟩

/-- C4 (as stated) fails, in two ways.  First, a submenu distinct from the
top-level table that holds the last top-level entry itself: the entry starts at
20 pages, which is also the sum over the submenu; two calls leave it at 80, a
rise of 60, which is twice none of the sums 20, 40, 80 the submenu has before,
between and after the calls.  Second, a table whose last entry has
`2 ^ 53 = 9007199254740992` pages and a separate submenu of one entry with one
page: `2 ^ 53 + 1` rounds to `2 ^ 53`, so two calls leave the count where it
was, not 2 higher, and the second call leaves the store reached by the first
unchanged although the sum is 1. -/
theorem fixupSubmenu_twice_shared_or_large :
    ((withSharedEntry.2.menus withSharedEntry.2.lesson).items ≠ [] ∧
     withSharedEntry.1 ≠ withSharedEntry.2.lesson ∧
     withSharedEntry.2.lessonLast = some 16 ∧
     (withSharedEntry.2.menus withSharedEntry.1).items = [16] ∧
     withSharedEntry.2.pageCnt 16 = 20 ∧
     withSharedEntry.2.pageSum withSharedEntry.1 = 20 ∧
     (fixupSubmenu withSharedEntry.1 "x" withSharedEntry.2).isError = false ∧
     (fixupSubmenu withSharedEntry.1 "x" withSharedEntry.2).store.pageSum withSharedEntry.1 = 40 ∧
     (fixupSubmenu withSharedEntry.1 "x"
       (fixupSubmenu withSharedEntry.1 "x" withSharedEntry.2).store).isError = false ∧
     (fixupSubmenu withSharedEntry.1 "x"
       (fixupSubmenu withSharedEntry.1 "x" withSharedEntry.2).store).store.pageSum
         withSharedEntry.1 = 80 ∧
     (fixupSubmenu withSharedEntry.1 "x"
       (fixupSubmenu withSharedEntry.1 "x" withSharedEntry.2).store).store.pageCnt 16 = 80 ∧
     (fixupSubmenu withSharedEntry.1 "x"
       (fixupSubmenu withSharedEntry.1 "x" withSharedEntry.2).store).store.pageCnt 16
       ≠ withSharedEntry.2.pageCnt 16 + 2 * withSharedEntry.2.pageSum withSharedEntry.1) ∧
    ((withHugeParent.2.menus withHugeParent.2.lesson).items ≠ [] ∧
     withHugeParent.1 ≠ withHugeParent.2.lesson ∧
     withHugeParent.2.lessonLast = some 0 ∧
     (withHugeParent.2.menus withHugeParent.1).items = [1] ∧
     withHugeParent.2.pageCnt 0 = 9007199254740992 ∧
     withHugeParent.2.pageSum withHugeParent.1 = 1 ∧
     (fixupSubmenu withHugeParent.1 "x" withHugeParent.2).isError = false ∧
     (fixupSubmenu withHugeParent.1 "x" withHugeParent.2).store.pageCnt 0
       = 9007199254740992 ∧
     (fixupSubmenu withHugeParent.1 "x"
       (fixupSubmenu withHugeParent.1 "x" withHugeParent.2).store).store.pageCnt 0
       = 9007199254740992 ∧
     (fixupSubmenu withHugeParent.1 "x"
       (fixupSubmenu withHugeParent.1 "x" withHugeParent.2).store).store.pageCnt 0
       ≠ withHugeParent.2.pageCnt 0 + 2 * withHugeParent.2.pageSum withHugeParent.1 ∧
     fixupSubmenu withHugeParent.1 "x" (fixupSubmenu withHugeParent.1 "x" withHugeParent.2).store
       = .ok (fixupSubmenu withHugeParent.1 "x" withHugeParent.2).store ∧
     withHugeParent.2.pageSum withHugeParent.1 ≠ 0) := by
  refine ⟨by decide, by decide, by decide, by decide, by decide, by decide, by decide,
    by decide, by decide, by decide, by decide, ?_, by decide⟩
  rw [fixupSubmenu_of_last withHugeParent.1 "x"
      (fixupSubmenu withHugeParent.1 "x" withHugeParent.2).store 0 (by decide),
    attach_eq_self withHugeParent.1 "x" 0
      (fixupSubmenu withHugeParent.1 "x" withHugeParent.2).store
      (by decide) (by decide) (by decide)]

/-- C10 (amended): for every store whose top-level table is non-empty and every
submenu table `pLsm`, `fixupSubmenu pLsm pName` changes only the page count and
the `subMenu` reference of the last entry `p` of the top-level table and the
`menuName` of `pLsm`.  Every table keeps its entries in order (so the top-level
table keeps its length and order, and `pLsm` its sequence of entries) and its
`groupName`; every table other than `pLsm` is unchanged; every entry object
other than `p` is unchanged; `p` keeps its page ids, assessment fields, title,
url and group id; the variables of the script are unchanged.  The entries of
`pLsm` are unchanged when `pLsm` does not hold `p` itself. -/
theorem fixupSubmenu_frame (s : Store) (pLsm : Ref) (pName : String)
    (h : (s.menus s.lesson).items ≠ []) :
    ∃ p s', s.lessonLast = some p ∧ fixupSubmenu pLsm pName s = .ok s' ∧
      (∀ t, (s'.menus t).items = (s.menus t).items ∧
            (s'.menus t).groupName = (s.menus t).groupName) ∧
      (s'.menus pLsm).menuName = some pName ∧
      (∀ t, t ≠ pLsm → s'.menus t = s.menus t) ∧
      (∀ r, r ≠ p → s'.entries r = s.entries r) ∧
      (s'.entries p).subMenu = some pLsm ∧
      (s'.entries p).menuEntryData.pageArray = (s.entries p).menuEntryData.pageArray ∧
      (s'.entries p).menuEntryData.assessment = (s.entries p).menuEntryData.assessment ∧
      (s'.entries p).menuEntryData.assessmentUrl = (s.entries p).menuEntryData.assessmentUrl ∧
      (s'.entries p).menuEntryData.title = (s.entries p).menuEntryData.title ∧
      (s'.entries p).menuEntryData.url = (s.entries p).menuEntryData.url ∧
      (s'.entries p).menuEntryData.group = (s.entries p).menuEntryData.group ∧
      (p ∉ (s.menus pLsm).items → s'.entriesOf pLsm = s.entriesOf pLsm) ∧
      s'.lesson = s.lesson ∧ s'.titleProgram = s.titleProgram ∧
      s'.titleCourse = s.titleCourse ∧ s'.docDisclaimer = s.docDisclaimer ∧
      s'.alerts = s.alerts ∧ s'.nextEntry = s.nextEntry ∧ s'.nextMenu = s.nextMenu := by
  have hp := lessonLast_of_ne_nil s h
  refine ⟨_, _, hp, fixupSubmenu_of_last pLsm pName s _ hp, ?_, ?_, ?_, ?_, ?_, ?_, ?_, ?_,
    ?_, ?_, ?_, ?_, rfl, rfl, rfl, rfl, rfl, rfl, rfl⟩
  · intro t
    constructor
    · simp only [attach, items_heapSet_menuName]
    · simp only [attach, heapSet]
      split
      · next ht => subst ht; rfl
      · rfl
  · simp only [attach, heapSet_same]
  · intro t ht
    simp only [attach, heapSet_other _ _ _ _ ht]
  · intro r hr
    simp only [attach, heapSet_other _ _ _ _ hr]
  · simp only [attach, heapSet_same]
  · simp only [attach, heapSet_same]
  · simp only [attach, heapSet_same]
  · simp only [attach, heapSet_same]
  · simp only [attach, heapSet_same]
  · simp only [attach, heapSet_same]
  · simp only [attach, heapSet_same]
  · intro hnot
    unfold Store.entriesOf
    simp only [attach, items_heapSet_menuName]
    apply List.map_congr_left
    intro r hr
    have hne : r ≠ (s.menus s.lesson).items.getLast h := fun e => hnot (e ▸ hr)
    simp only [heapSet_other _ _ _ _ hne]

/-- Witness for C10 (amended): the loaded table with a two-entry submenu. -/
theorem fixupSubmenu_frame_witness :
    (withSubmenu.2.menus withSubmenu.2.lesson).items ≠ [] ∧
    (withSubmenu.2.menus withSubmenu.1).items = [17, 18] ∧
    ∃ p s', withSubmenu.2.lessonLast = some p ∧
      fixupSubmenu withSubmenu.1 "treatment" withSubmenu.2 = .ok s' ∧
      (∀ t, (s'.menus t).items = (withSubmenu.2.menus t).items ∧
            (s'.menus t).groupName = (withSubmenu.2.menus t).groupName) ∧
      (s'.menus withSubmenu.1).menuName = some "treatment" ∧
      (∀ t, t ≠ withSubmenu.1 → s'.menus t = withSubmenu.2.menus t) ∧
      (∀ r, r ≠ p → s'.entries r = withSubmenu.2.entries r) ∧
      (s'.entries p).subMenu = some withSubmenu.1 ∧
      (s'.entries p).menuEntryData.pageArray = (withSubmenu.2.entries p).menuEntryData.pageArray ∧
      (s'.entries p).menuEntryData.assessment = (withSubmenu.2.entries p).menuEntryData.assessment ∧
      (s'.entries p).menuEntryData.assessmentUrl
        = (withSubmenu.2.entries p).menuEntryData.assessmentUrl ∧
      (s'.entries p).menuEntryData.title = (withSubmenu.2.entries p).menuEntryData.title ∧
      (s'.entries p).menuEntryData.url = (withSubmenu.2.entries p).menuEntryData.url ∧
      (s'.entries p).menuEntryData.group = (withSubmenu.2.entries p).menuEntryData.group ∧
      (p ∉ (withSubmenu.2.menus withSubmenu.1).items →
        s'.entriesOf withSubmenu.1 = withSubmenu.2.entriesOf withSubmenu.1) ∧
      s'.lesson = withSubmenu.2.lesson ∧ s'.titleProgram = withSubmenu.2.titleProgram ∧
      s'.titleCourse = withSubmenu.2.titleCourse ∧
      s'.docDisclaimer = withSubmenu.2.docDisclaimer ∧
      s'.alerts = withSubmenu.2.alerts ∧ s'.nextEntry = withSubmenu.2.nextEntry ∧
      s'.nextMenu = withSubmenu.2.nextMenu :=
  ⟨by decide, by decide,
   fixupSubmenu_frame withSubmenu.2 withSubmenu.1 "treatment" (by decide)⟩

/-- C10 (as stated) fails: the loaded table passed as its own submenu.  The
call completes, and the last of the entries of the submenu (the last entry of
the table) goes from 20 pages and no `subMenu` to 211 pages with a `subMenu`,
so the entries of the submenu are not unchanged. -/
theorem fixupSubmenu_changes_shared_entry :
    (loaded.menus loaded.lesson).items ≠ [] ∧
    (fixupSubmenu loaded.lesson "main" loaded).isError = false ∧
    loaded.lessonLast = some 16 ∧
    16 ∈ (loaded.menus loaded.lesson).items ∧
    (loaded.entries 16).menuEntryData.pageCnt = 20 ∧
    (loaded.entries 16).subMenu = none ∧
    ((fixupSubmenu loaded.lesson "main" loaded).store.entries 16).menuEntryData.pageCnt = 211 ∧
    ((fixupSubmenu loaded.lesson "main" loaded).store.entries 16).subMenu
      = some loaded.lesson ∧
    (fixupSubmenu loaded.lesson "main" loaded).store.entriesOf loaded.lesson
      ≠ loaded.entriesOf loaded.lesson := by
  decide

/-- A first attachment establishes the page-count invariant: when the last
entry `p` of the top-level table counts exactly its own page ids, the submenu
`pLsm` does not hold `p`, and the page ids of `p` and the pages of `pLsm`
together are at most `2 ^ 53`, then after `fixupSubmenu pLsm pName` the entry `p`
carries `pLsm` and counts its own page ids plus the pages of `pLsm`. -/
theorem fixupSubmenu_first_attach (s : Store) (pLsm : Ref) (pName : String) (p : Ref)
    (hp : s.lessonLast = some p)
    (hown : s.pageCnt p = (s.entries p).menuEntryData.pageArray.length)
    (hnot : p ∉ (s.menus pLsm).items)
    (hb : s.pageCnt p + s.pageSum pLsm ≤ 2 ^ 53) :
    ∃ s', fixupSubmenu pLsm pName s = .ok s' ∧
      (s'.entries p).subMenu = some pLsm ∧
      s'.pageCnt p = (s'.entries p).menuEntryData.pageArray.length + s'.pageSum pLsm := by
  refine ⟨_, fixupSubmenu_of_last pLsm pName s _ hp, by simp only [attach, heapSet_same], ?_⟩
  rw [pageCnt_attach_of_le _ _ _ _ hb, pageSum_attach_of_not_mem _ _ _ _ _ hnot, hown]
  simp only [attach, heapSet_same]

/-- C3 (the invariant breaks on re-attachment): on the loaded table with a
two-entry submenu of 5 pages, the last entry has 20 page ids.  After the first
`fixupSubmenu` it carries the submenu and counts 25 = 20 + 5 pages; after a
second call with the same submenu it still carries that submenu, whose entries
still sum to 5, but counts 30 pages. -/
theorem fixupSubmenu_reattach_breaks_invariant :
    withSubmenu.2.lessonLast = some 16 ∧
    (withSubmenu.2.entries 16).subMenu = none ∧
    withSubmenu.2.pageCnt 16 = 20 ∧
    (withSubmenu.2.entries 16).menuEntryData.pageArray.length = 20 ∧
    (fixupSubmenu withSubmenu.1 "treatment" withSubmenu.2).isError = false ∧
    (afterFirstAttach.entries 16).subMenu = some withSubmenu.1 ∧
    (afterFirstAttach.entries 16).menuEntryData.pageArray.length = 20 ∧
    afterFirstAttach.pageSum withSubmenu.1 = 5 ∧
    afterFirstAttach.pageCnt 16 = 25 ∧
    (fixupSubmenu withSubmenu.1 "treatment" afterFirstAttach).isError = false ∧
    (afterSecondAttach.entries 16).subMenu = some withSubmenu.1 ∧
    (afterSecondAttach.entries 16).menuEntryData.pageArray.length = 20 ∧
    afterSecondAttach.pageSum withSubmenu.1 = 5 ∧
    afterSecondAttach.pageCnt 16 = 30 ∧
    afterSecondAttach.pageCnt 16 ≠
      (afterSecondAttach.entries 16).menuEntryData.pageArray.length
        + afterSecondAttach.pageSum withSubmenu.1 := by
  decide

/-- C2: in the store reached once `config.js` has run, the top-level table has
seventeen entries, none of them has a `subMenu`, and for each of them the slot
at `MENU_PAGECNT_IDX` holds a number, the slot at `MENU_PAGEARRAY_IDX` holds a
list, and the number is the length of the list. -/
theorem loaded_entries_standalone :
    (loaded.entriesOf loaded.lesson).length = 17 ∧
    ∀ e ∈ loaded.entriesOf loaded.lesson,
      e.subMenu = none ∧
      e.menuEntryData.slots[MENU_PAGECNT_IDX]? = some (.num e.menuEntryData.pageCnt) ∧
      e.menuEntryData.slots[MENU_PAGEARRAY_IDX]? = some (.ids e.menuEntryData.pageArray) ∧
      e.menuEntryData.pageCnt.val = e.menuEntryData.pageArray.length := by
  decide

/-- Witness for C2: the Section 1 entry, with 16 pages and 16 page ids. -/
theorem loaded_entries_standalone_witness :
    (loaded.entries 1) ∈ loaded.entriesOf loaded.lesson ∧
    (loaded.entries 1).subMenu = none ∧
    (loaded.entries 1).menuEntryData.slots[MENU_PAGECNT_IDX]? = some (.num 16) ∧
    (loaded.entries 1).menuEntryData.slots[MENU_PAGEARRAY_IDX]?
      = some (.ids (loaded.entries 1).menuEntryData.pageArray) ∧
    (loaded.entries 1).menuEntryData.pageCnt.val
      = (loaded.entries 1).menuEntryData.pageArray.length :=
  ⟨by decide, loaded_entries_standalone.2 (loaded.entries 1) (by decide)⟩

/-- C6 (amended): the loaded top-level table has exactly 17 entries, in the
order of the pushes (the entries are the pushed literals in order, their urls
running from `lesson00` to `lesson16`), and its first five entries have the
stated title, url, page count and group id, the title of the fourth being
`Section 3: Improve the Situation: ` with the space that ends it in the
source. -/
theorem loaded_table_contents :
    (loaded.menus loaded.lesson).items.length = 17 ∧
    (loaded.entriesOf loaded.lesson).map (fun e => e.menuEntryData) = lessonData ∧
    (loaded.entriesOf loaded.lesson).map (fun e => e.menuEntryData.slots[MENU_URL_IDX]?) =
      [ some (.str "lesson00/00_001.htm"), some (.str "lesson01/01_001.htm"),
        some (.str "lesson02/02_001.htm"), some (.str "lesson03/03_001.htm"),
        some (.str "lesson04/04_001.htm"), some (.str "lesson05/05_001.htm"),
        some (.str "lesson06/06_001.htm"), some (.str "lesson07/07_001.htm"),
        some (.str "lesson08/08_001.htm"), some (.str "lesson09/09_001.htm"),
        some (.str "lesson10/10_001.htm"), some (.str "lesson11/11_001.htm"),
        some (.str "lesson12/12_001.htm"), some (.str "lesson13/13_001.htm"),
        some (.str "lesson14/14_001.htm"), some (.str "lesson15/15_001.htm"),
        some (.str "lesson16/16_001.htm") ] ∧
    ((loaded.entriesOf loaded.lesson).take 5).map
        (fun e => (e.menuEntryData.title, e.menuEntryData.url,
                   e.menuEntryData.pageCnt, e.menuEntryData.group)) =
      [ ("Welcome", "lesson00/00_001.htm", 1, none),
        ("Section 1: Introduction (Lesson 1)", "lesson01/01_001.htm", 16, some "01"),
        ("Section 2: Safety Planning (Lesson 2)", "lesson02/02_001.htm", 13, some "02"),
        ("Section 3: Improve the Situation: ", "lesson03/03_001.htm", 1, none),
        ("Section 3: Understand PTSD (Lesson 3)", "lesson04/04_001.htm", 24, some "04") ] := by
  decide

/-- C6 (as stated) fails: the title of the fourth entry of the loaded table is
not `Section 3: Improve the Situation:`; it has one more character, a space
at its end. -/
theorem loaded_fourth_title_has_trailing_space :
    (loaded.entriesOf loaded.lesson)[3]?.map (fun e => e.menuEntryData.title)
      ≠ some "Section 3: Improve the Situation:" ∧
    (loaded.entriesOf loaded.lesson)[3]?.map (fun e => e.menuEntryData.title)
      = some ("Section 3: Improve the Situation:" ++ " ") ∧
    ((loaded.entriesOf loaded.lesson).take 5).map
        (fun e => (e.menuEntryData.title, e.menuEntryData.url,
                   e.menuEntryData.pageCnt, e.menuEntryData.group)) ≠
      [ ("Welcome", "lesson00/00_001.htm", 1, none),
        ("Section 1: Introduction (Lesson 1)", "lesson01/01_001.htm", 16, some "01"),
        ("Section 2: Safety Planning (Lesson 2)", "lesson02/02_001.htm", 13, some "02"),
        ("Section 3: Improve the Situation:", "lesson03/03_001.htm", 1, none),
        ("Section 3: Understand PTSD (Lesson 3)", "lesson04/04_001.htm", 24, some "04") ] := by
  decide

/-- C7: the second entry of the loaded table is the Section 1 entry; its page
count is 16 and its page-id list has length 16 and is the increasing run of
three-digit zero-padded numbers from `001` to `017` without `004`. -/
theorem loaded_section1_pages :
    (loaded.entriesOf loaded.lesson)[1]?.map (fun e => e.menuEntryData.title)
      = some "Section 1: Introduction (Lesson 1)" ∧
    (loaded.entriesOf loaded.lesson)[1]?.map (fun e => e.menuEntryData.pageCnt) = some 16 ∧
    (loaded.entriesOf loaded.lesson)[1]?.map (fun e => e.menuEntryData.pageArray.length)
      = some 16 ∧
    (loaded.entriesOf loaded.lesson)[1]?.map (fun e => e.menuEntryData.pageArray)
      = some (((List.range' 1 17).filter (fun n => n != 4)).map pad3) ∧
    ((List.range' 1 17).filter (fun n => n != 4)).map pad3 =
      ["001","002","003","005","006","007","008","009","010","011","012","013","014","015",
       "016","017"] := by
  decide

/-- C8: in the loaded table, the group ids that are not null are non-empty
strings, no two entries share one, and the url of every entry is `#` or a
non-empty relative path (no scheme, no leading `/`). -/
theorem loaded_groups_and_urls :
    ((loaded.entriesOf loaded.lesson).filterMap (fun e => e.menuEntryData.group)).all
        (fun g => g != "") = true ∧
    ((loaded.entriesOf loaded.lesson).filterMap (fun e => e.menuEntryData.group)).Nodup ∧
    ((loaded.entriesOf loaded.lesson).filterMap (fun e => e.menuEntryData.group)).length = 12 ∧
    (loaded.entriesOf loaded.lesson).all
        (fun e => e.menuEntryData.url == "#" || isRelativePath e.menuEntryData.url) = true ∧
    (loaded.entriesOf loaded.lesson).map (fun e => e.menuEntryData.slots[MENU_GROUP_IDX]?) =
      [ some .null, some (.str "01"), some (.str "02"), some .null, some (.str "04"),
        some (.str "05"), some .null, some (.str "07"), some (.str "08"), some (.str "09"),
        some .null, some (.str "11"), some (.str "12"), some .null, some (.str "14"),
        some (.str "15"), some (.str "16") ] := by
  decide

/-- C9: `showDisclaimer`, which takes no argument and returns no value, adds
exactly one alert, whose message is the value of `docDisclaimer` (prefixing the
empty string changes nothing), and leaves the heaps, the `lesson` variable, the
title variables and `docDisclaimer` unchanged; and `docDisclaimer` holds the
literal disclaimer text once the script has run, so that on the loaded store
the one alert shown is that text. -/
theorem showDisclaimer_alerts_disclaimer (s : Store) :
    (showDisclaimer s).alerts = s.alerts ++ [s.docDisclaimer] ∧
    "" ++ s.docDisclaimer = s.docDisclaimer ∧
    (showDisclaimer s).entries = s.entries ∧ (showDisclaimer s).menus = s.menus ∧
    (showDisclaimer s).lesson = s.lesson ∧
    (showDisclaimer s).titleProgram = s.titleProgram ∧
    (showDisclaimer s).titleCourse = s.titleCourse ∧
    (showDisclaimer s).docDisclaimer = s.docDisclaimer ∧
    (showDisclaimer s).nextEntry = s.nextEntry ∧ (showDisclaimer s).nextMenu = s.nextMenu ∧
    loaded.docDisclaimer = "This document will open in a new window or tab. Once you have completed your use of this document, close the window or tab that contains it. The course is still open and you will be taken back to your location in the course." ∧
    (showDisclaimer loaded).alerts = ["This document will open in a new window or tab. Once you have completed your use of this document, close the window or tab that contains it. The course is still open and you will be taken back to your location in the course."] := by
  have he : "" ++ s.docDisclaimer = s.docDisclaimer := String.empty_append _
  refine ⟨?_, he, rfl, rfl, rfl, rfl, rfl, rfl, rfl, rfl, rfl, ?_⟩
  · simp only [showDisclaimer, he]
  · show [] ++ ["" ++ loaded.docDisclaimer] = _
    rw [String.empty_append]
    rfl

end Config
